import Mathlib

/-!
Verification of the directive dispatch pipeline of a voice-assistant client SDK.

This file contains a shallow embedding of:
 * `ADSL/src/DirectiveSequencer.cpp` (class `DirectiveSequencer`),
 * `RegistrationManager/src/RegistrationManager.cpp` (class `RegistrationManager`),
 * `AVSCommon/AVS/src/EndpointResources.cpp` (class `EndpointResources`),
together with theorems settling the behavioural claims about these classes.

Conventions of the embedding:
 * C++ member state becomes a Lean structure; each method becomes a function from the
   structure (plus its arguments) to the updated structure, together with any return
   value and a trace of the externally observable calls the method makes.
 * Mutex acquisition/release and condition-variable notification have no observable
   effect in a sequential model and are not represented; `join` on a thread is
   represented by inlining, at the join point, the events the joined thread performs
   before it exits (those events happen-before `join` returns).
 * Collaborator components whose sources are not part of the verified core
   (`DirectiveRouter`, `DirectiveProcessor`, the exception sender, the power monitor)
   are represented either by boolean oracles or by events recording the call made.
-/

namespace AVS

/-- An AVS directive as seen by `DirectiveSequencer` (`AVSCommon/AVS/AVSDirective`):
the embedding keeps only the fields the sequencer reads: `getName()`,
`getDialogRequestId()`, `getMessageId()`, `getUnparsedDirective()`,
`getHeaderAsString()`. -/
structure AVSDirective where
  name : String
  dialogRequestId : String
  messageId : String
  unparsedDirective : String
  headerAsString : String
deriving DecidableEq, Repr

/-- Modelled from the spec: `DirectiveProcessor`'s source is not under the verified
core; §4.3 of the spec describes its observable state as a current dialog-request id
(`set_dialog_request_id` "atomically replaces the current id") and an enabled flag
toggled by `enable()`/`disable()`.  Only these two fields are read by the claims. -/
structure DirectiveProcessorState where
  dialogRequestId : String
  isEnabled : Bool
deriving DecidableEq, Repr

/-- Modelled from the spec: `DirectiveProcessor::setDialogRequestId` replaces the
stored dialog-request id. -/
def DirectiveProcessorState.setDialogRequestId (p : DirectiveProcessorState) (id : String) :
    DirectiveProcessorState :=
  { p with dialogRequestId := id }

/-- Modelled from the spec: `DirectiveProcessor::disable` clears the enabled flag. -/
def DirectiveProcessorState.disable (p : DirectiveProcessorState) : DirectiveProcessorState :=
  { p with isEnabled := false }

/-- Modelled from the spec: `DirectiveProcessor::enable` sets the enabled flag. -/
def DirectiveProcessorState.enable (p : DirectiveProcessorState) : DirectiveProcessorState :=
  { p with isEnabled := true }

/-- The mutable state of `DirectiveSequencer` (`ADSL/src/DirectiveSequencer.cpp`):
`m_isShuttingDown`, `m_isEnabled`, the intake queue `m_receivingQueue`
(a `std::deque`, front at the head of the list), and the owned
`m_directiveProcessor`'s observable state. -/
structure DirectiveSequencer where
  m_isShuttingDown : Bool
  m_isEnabled : Bool
  m_receivingQueue : List AVSDirective
  m_directiveProcessor : DirectiveProcessorState
deriving DecidableEq, Repr

/-- The state established by the constructor `DirectiveSequencer::DirectiveSequencer`
(lines 111-127): `m_isShuttingDown{false}`, `m_isEnabled{true}`, empty queue, and a
freshly constructed processor (empty dialog id, enabled). -/
def DirectiveSequencer.construct : DirectiveSequencer :=
  { m_isShuttingDown := false
    m_isEnabled := true
    m_receivingQueue := []
    m_directiveProcessor := { dialogRequestId := "", isEnabled := true } }

/-- `DirectiveSequencer::onDirective` (lines 91-109).  A null `shared_ptr` argument is
embedded as `none`.  Returns the C++ return value and the updated state:
null → `false`; `m_isShuttingDown || !m_isEnabled` → `false`; otherwise the directive
is pushed to the back of `m_receivingQueue` and `true` is returned. -/
def DirectiveSequencer.onDirective (s : DirectiveSequencer) (directive : Option AVSDirective) :
    Bool × DirectiveSequencer :=
  match directive with
  | none => (false, s)
  | some d =>
    if s.m_isShuttingDown || !s.m_isEnabled then
      (false, s)
    else
      (true, { s with m_receivingQueue := s.m_receivingQueue ++ [d] })

/-- `DirectiveSequencer::setDialogRequestId` (lines 83-85): pass-through to the
processor. -/
def DirectiveSequencer.setDialogRequestId (s : DirectiveSequencer) (id : String) :
    DirectiveSequencer :=
  { s with m_directiveProcessor := s.m_directiveProcessor.setDialogRequestId id }

/-- `DirectiveSequencer::disable` (lines 144-151): clears `m_isEnabled`, sets the
processor's dialog-request id to `""`, and disables the processor. -/
def DirectiveSequencer.disable (s : DirectiveSequencer) : DirectiveSequencer :=
  { s with
    m_isEnabled := false
    m_directiveProcessor := (s.m_directiveProcessor.setDialogRequestId "").disable }

/-- `DirectiveSequencer::enable` (lines 153-159): sets `m_isEnabled` and enables the
processor. -/
def DirectiveSequencer.enable (s : DirectiveSequencer) : DirectiveSequencer :=
  { s with
    m_isEnabled := true
    m_directiveProcessor := s.m_directiveProcessor.enable }

/-- `avsCommon::avs::ExceptionErrorType`: the error kinds consumed by the core. -/
inductive ExceptionErrorType where
  | UNEXPECTED_INFORMATION_RECEIVED
  | UNSUPPORTED_OPERATION
  | INTERNAL_ERROR
deriving DecidableEq, Repr

/-- An externally observable call made while dispatching one dequeued directive
(`DirectiveSequencer::receiveDirectiveLocked`, lines 181-216): a call to
`m_directiveRouter.handleDirectiveImmediately`, a call to
`m_directiveProcessor->onDirective`, or a call to
`m_exceptionSender->sendExceptionEncountered`. -/
inductive DispatchEvent where
  | handleDirectiveImmediately (d : AVSDirective)
  | processorOnDirective (d : AVSDirective)
  | sendExceptionEncountered (unparsed : String) (error : ExceptionErrorType) (message : String)
deriving DecidableEq, Repr

/-- Whether a dispatch event is a call to the exception sender. -/
def DispatchEvent.isException : DispatchEvent → Bool
  | .sendExceptionEncountered _ _ _ => true
  | _ => false

/-- The directive an event hands to a dispatch path (router or processor), if any. -/
def DispatchEvent.dispatchTarget : DispatchEvent → Option AVSDirective
  | .handleDirectiveImmediately d => some d
  | .processorOnDirective d => some d
  | .sendExceptionEncountered _ _ _ => none

/-- The environment `receiveDirectiveLocked` dispatches into.
`dialogRequestIdInAllResponseDirectives` embeds the build-time option
`DIALOG_REQUEST_ID_IN_ALL_RESPONSE_DIRECTIVES` (line 200).  The two boolean oracles
stand for `DirectiveRouter::handleDirectiveImmediately` and
`DirectiveProcessor::onDirective`, whose sources are outside the verified core; the
sequencer only consumes their boolean results. -/
structure DispatchEnv where
  dialogRequestIdInAllResponseDirectives : Bool
  routerHandleImmediately : AVSDirective → Bool
  processorOnDirective : AVSDirective → Bool

/-- Whether the dequeued directive takes the immediate router path (lines 200-205):
only when the build option is on and `getDialogRequestId().empty()`. -/
def chosenPathIsImmediate (env : DispatchEnv) (d : AVSDirective) : Bool :=
  env.dialogRequestIdInAllResponseDirectives && d.dialogRequestId == ""

/-- The boolean `handled` computed at lines 200-208 for the dequeued directive. -/
def chosenPathResult (env : DispatchEnv) (d : AVSDirective) : Bool :=
  if chosenPathIsImmediate env d then env.routerHandleImmediately d
  else env.processorOnDirective d

/-- `DirectiveSequencer::receiveDirectiveLocked` (lines 181-216): if the queue is
empty, return; otherwise pop the front directive, dispatch it on the chosen path, and
if the path returned `false` call
`sendExceptionEncountered(unparsed, UNSUPPORTED_OPERATION, "Unsupported operation")`.
Returns the updated queue and the trace of external calls made. -/
def receiveDirectiveLocked (env : DispatchEnv) (q : List AVSDirective) :
    List AVSDirective × List DispatchEvent :=
  match q with
  | [] => ([], [])
  | d :: rest =>
    let dispatchCall :=
      if chosenPathIsImmediate env d then DispatchEvent.handleDirectiveImmediately d
      else DispatchEvent.processorOnDirective d
    let exceptionCalls :=
      if chosenPathResult env d then []
      else [DispatchEvent.sendExceptionEncountered d.unparsedDirective
              ExceptionErrorType.UNSUPPORTED_OPERATION "Unsupported operation"]
    (rest, dispatchCall :: exceptionCalls)

/-- A call into the public API of one `DirectiveSequencer` instance, or one iteration
of the receiving loop's body (`receiveOne`).  `addDirectiveHandler` and
`removeDirectiveHandler` (lines 75-81) only forward to `m_directiveRouter` and touch
none of the sequencer's own state. -/
inductive SequencerOp where
  | onDirective (d : Option AVSDirective)
  | setDialogRequestId (id : String)
  | addDirectiveHandler
  | removeDirectiveHandler
  | disable
  | enable
  | receiveOne
deriving DecidableEq, Repr

/-- The state transition performed by one `SequencerOp`. -/
def stepOp (env : DispatchEnv) (s : DirectiveSequencer) : SequencerOp → DirectiveSequencer
  | .onDirective d => (s.onDirective d).2
  | .setDialogRequestId id => s.setDialogRequestId id
  | .addDirectiveHandler => s
  | .removeDirectiveHandler => s
  | .disable => s.disable
  | .enable => s.enable
  | .receiveOne => { s with m_receivingQueue := (receiveDirectiveLocked env s.m_receivingQueue).1 }

/-- Run a sequence of operations from a start state. -/
def runOps (env : DispatchEnv) (s : DirectiveSequencer) (ops : List SequencerOp) :
    DirectiveSequencer :=
  ops.foldl (stepOp env) s

/-- Bookkeeping for a run of sequencer operations: the current state, the directives
accepted so far (those for which `onDirective` returned `true`, in return order), and
the directives dispatched so far by the receiving thread (handed to the router or the
processor by `receiveDirectiveLocked`, in dequeue order). -/
structure RunResult where
  state : DirectiveSequencer
  accepted : List AVSDirective
  dispatched : List AVSDirective
deriving Repr

/-- One step of a bookkept run. -/
def runStep (env : DispatchEnv) (r : RunResult) : SequencerOp → RunResult
  | .onDirective d =>
    let res := r.state.onDirective d
    { state := res.2
      accepted := r.accepted ++
        (match d, res.1 with
          | some dir, true => [dir]
          | _, _ => [])
      dispatched := r.dispatched }
  | .receiveOne =>
    let res := receiveDirectiveLocked env r.state.m_receivingQueue
    { state := { r.state with m_receivingQueue := res.1 }
      accepted := r.accepted
      dispatched := r.dispatched ++ res.2.filterMap DispatchEvent.dispatchTarget }
  | op => { r with state := stepOp env r.state op }

/-- A bookkept run from a freshly constructed sequencer. -/
def fullRun (env : DispatchEnv) (ops : List SequencerOp) : RunResult :=
  ops.foldl (runStep env)
    { state := DirectiveSequencer.construct, accepted := [], dispatched := [] }

/-!  Lifecycle events: construction, the receiving thread, and `doShutdown`.
The power resource `m_powerResource` may be null (when the `PowerMonitor` has no
power manager installed); `hasPower` records that it is non-null. -/

/-- An externally observable lifecycle call of `DirectiveSequencer`. -/
inductive LifecycleEvent where
  /-- `m_isShuttingDown = true` (line 133). -/
  | setShuttingDownFlag
  /-- `m_wakeReceivingLoop.notifyOne()` in `doShutdown` (line 134). -/
  | wakeReceivingLoop
  /-- `m_receivingThread.join()` returned (line 137). -/
  | receivingThreadJoined
  /-- `m_powerResource->acquire()` (line 122). -/
  | powerAcquire
  /-- `m_powerResource->release()` (line 177). -/
  | powerRelease
  /-- `PowerMonitor::assignThreadPowerResource` (line 164): thread attribution only. -/
  | assignThreadPowerResource
  /-- `PowerMonitor::removeThreadPowerResource` (line 175): thread attribution only. -/
  | removeThreadPowerResource
  /-- `m_directiveProcessor->shutdown()` (line 139). -/
  | processorShutdown
  /-- `m_directiveRouter.shutdown()` (line 140). -/
  | routerShutdown
  /-- `m_exceptionSender.reset()` (line 141). -/
  | exceptionSenderReset
deriving DecidableEq, Repr

/-- The lifecycle calls made by the constructor (lines 111-127): acquire the power
resource exactly when it is non-null, then start the receiving thread. -/
def constructorEvents (hasPower : Bool) : List LifecycleEvent :=
  if hasPower then [LifecycleEvent.powerAcquire] else []

/-- The lifecycle calls the receiving thread makes after leaving its loop
(`receivingLoop`, lines 174-178): remove the thread power attribution, then release
the power resource when it is non-null.  These run before the thread exits, hence
before `join` returns. -/
def receivingLoopExitEvents (hasPower : Bool) : List LifecycleEvent :=
  LifecycleEvent.removeThreadPowerResource ::
    (if hasPower then [LifecycleEvent.powerRelease] else [])

/-- The lifecycle calls of `DirectiveSequencer::doShutdown` (lines 129-142), in
program order: set `m_isShuttingDown` and wake the receiving thread; the woken thread
breaks out of its loop and performs its exit events, after which `join` returns; then
the processor and the router are shut down and the exception sender is dropped. -/
def doShutdownEvents (hasPower : Bool) : List LifecycleEvent :=
  [LifecycleEvent.setShuttingDownFlag, LifecycleEvent.wakeReceivingLoop] ++
    receivingLoopExitEvents hasPower ++
    [LifecycleEvent.receivingThreadJoined, LifecycleEvent.processorShutdown,
     LifecycleEvent.routerShutdown, LifecycleEvent.exceptionSenderReset]

/-- The lifecycle calls made by a public API operation of the sequencer: none of
`onDirective`, `setDialogRequestId`, `addDirectiveHandler`, `removeDirectiveHandler`,
`disable`, `enable` (lines 75-159) nor the dispatch body `receiveDirectiveLocked`
(lines 181-216) touches `m_powerResource` or makes any other lifecycle call. -/
def opLifecycleEvents : SequencerOp → List LifecycleEvent :=
  fun _ => []

/-- The full lifecycle trace of one sequencer instance: construction, then an
arbitrary sequence of API operations, then `doShutdown`. -/
def lifecycleTrace (hasPower : Bool) (ops : List SequencerOp) : List LifecycleEvent :=
  constructorEvents hasPower ++ ops.flatMap opLifecycleEvents ++ doShutdownEvents hasPower

/-!  `RegistrationManager` (`RegistrationManager/src/RegistrationManager.cpp`). -/

/-- An externally observable call made by `RegistrationManager::logout`. -/
inductive LogoutEvent where
  /-- `m_directiveSequencer->disable()` (line 68). -/
  | directiveSequencerDisable
  /-- `m_connectionManager->disable()` (line 69). -/
  | connectionManagerDisable
  /-- `m_dataManager->clearData()` (line 70). -/
  | clearData
  /-- `observer->onLogout()` for one registered observer (line 108). -/
  | observerOnLogout (observer : String)
  /-- `submitLogoutMetric(m_metricRecorder)` (line 72). -/
  | submitLogoutMetric
deriving DecidableEq, Repr

/-- The state of `RegistrationManager` relevant to the claims: the owned directive
sequencer's state, the connection manager's enabled flag, whether customer data has
been cleared, and the registered observers (identified by name, in iteration
order). -/
structure RegistrationManager where
  m_directiveSequencer : DirectiveSequencer
  connectionManagerEnabled : Bool
  customerDataCleared : Bool
  m_observers : List String
deriving DecidableEq, Repr

/-- `RegistrationManager::notifyObservers` (lines 105-110): call `onLogout()` on every
registered observer. -/
def RegistrationManager.notifyObservers (r : RegistrationManager) : List LogoutEvent :=
  r.m_observers.map LogoutEvent.observerOnLogout

/-- `RegistrationManager::logout` (lines 66-73): disable the directive sequencer,
disable the connection manager, clear customer data, notify the observers, submit the
logout metric.  Returns the final state and the trace of calls in program order. -/
def RegistrationManager.logout (r : RegistrationManager) :
    RegistrationManager × List LogoutEvent :=
  let r' := { r with
    m_directiveSequencer := r.m_directiveSequencer.disable
    connectionManagerEnabled := false
    customerDataCleared := true }
  (r', [LogoutEvent.directiveSequencerDisable, LogoutEvent.connectionManagerDisable,
        LogoutEvent.clearData] ++ r'.notifyObservers ++ [LogoutEvent.submitLogoutMetric])

/-!  `EndpointResources` (`AVSCommon/AVS/src/EndpointResources.cpp`).  A `Locale` is a
`std::string`; `utils::Optional<Locale>` is embedded as `Option String`. -/

/-- `EndpointResources::Label::LabelType` (header, lines 133-139). -/
inductive LabelType where
  | ASSET
  | TEXT
deriving DecidableEq, Repr

/-- `EndpointResources::Label` (header, lines 131-169). -/
structure Label where
  type : LabelType
  value : String
  locale : Option String
deriving DecidableEq, Repr

/-- `Label::operator==` (`EndpointResources.cpp`, lines 48-50): compares `value` and
`locale.valueOr("")`; the `type` field does not participate. -/
def Label.beq (a b : Label) : Bool :=
  a.value == b.value && a.locale.getD "" == b.locale.getD ""

/-- Maximum length of the friendly name (line 39). -/
def MAX_FRIENDLY_NAME_LENGTH : Nat := 128

/-- Maximum length of the manufacturer name (line 41). -/
def MAX_MANUFACTURER_NAME_LENGTH : Nat := 128

/-- Maximum length of the description (line 43). -/
def MAX_DESCRIPTION_LENGTH : Nat := 128

/-- The member state of `EndpointResources` (header, lines 171-181). -/
structure EndpointResources where
  m_isValid : Bool
  m_friendlyNames : List Label
  m_manufacturerName : Label
  m_description : Label
deriving DecidableEq, Repr

/-- The state established by `EndpointResources::EndpointResources` (line 45):
`m_isValid{true}`, no friendly names, and default-constructed labels for the
manufacturer name and the description (empty `value`, empty `locale`; the
default-constructed `type` is never observed, since `build` reads a label's `type`
only when its `value` is non-empty — we pick `ASSET`). -/
def EndpointResources.construct : EndpointResources :=
  { m_isValid := true
    m_friendlyNames := []
    m_manufacturerName := { type := LabelType.ASSET, value := "", locale := none }
    m_description := { type := LabelType.ASSET, value := "", locale := none } }

/-- `EndpointResources::addFriendlyNameWithAssetId` (lines 52-72).  The second
component of the result records whether this call executed an `m_isValid = false`
assignment (an error was flagged). -/
def EndpointResources.addFriendlyNameWithAssetId (e : EndpointResources)
    (assetId : String) : EndpointResources × Bool :=
  if assetId.length == 0 then
    ({ e with m_isValid := false }, true)
  else if e.m_friendlyNames.any (fun l =>
      Label.beq l { type := LabelType.ASSET, value := assetId, locale := none }) then
    ({ e with m_isValid := false }, true)
  else
    ({ e with m_friendlyNames := e.m_friendlyNames ++
        [{ type := LabelType.ASSET, value := assetId, locale := none }] }, false)

/-- `EndpointResources::addFriendlyNameWithText` (lines 74-103).  The duplicate case
(lines 88-98) only logs a warning and returns without touching any member.  The
second component records whether this call executed an `m_isValid = false`
assignment. -/
def EndpointResources.addFriendlyNameWithText (e : EndpointResources)
    (text locale : String) : EndpointResources × Bool :=
  if text.length == 0 || text.length > MAX_FRIENDLY_NAME_LENGTH then
    ({ e with m_isValid := false }, true)
  else if locale == "" then
    ({ e with m_isValid := false }, true)
  else if e.m_friendlyNames.any (fun l =>
      Label.beq l { type := LabelType.TEXT, value := text, locale := some locale }) then
    (e, false)
  else
    ({ e with m_friendlyNames := e.m_friendlyNames ++
        [{ type := LabelType.TEXT, value := text, locale := some locale }] }, false)

/-- `EndpointResources::addManufacturerNameWithAssetId` (lines 105-120). -/
def EndpointResources.addManufacturerNameWithAssetId (e : EndpointResources)
    (assetId : String) : EndpointResources × Bool :=
  if assetId.length == 0 then
    ({ e with m_isValid := false }, true)
  else if e.m_manufacturerName.value.length != 0 then
    ({ e with m_isValid := false }, true)
  else
    ({ e with m_manufacturerName :=
        { type := LabelType.ASSET, value := assetId, locale := none } }, false)

/-- `EndpointResources::addManufacturerNameWithText` (lines 122-142).  The invalid
text and invalid locale checks flag `m_isValid = false` but do not return early; the
already-exists check returns early; otherwise the label is stored (even when text or
locale was flagged invalid). -/
def EndpointResources.addManufacturerNameWithText (e : EndpointResources)
    (text locale : String) : EndpointResources × Bool :=
  let flagText := text.length == 0 || text.length > MAX_MANUFACTURER_NAME_LENGTH
  let flagLocale := locale == ""
  let e1 := if flagText || flagLocale then { e with m_isValid := false } else e
  if e1.m_manufacturerName.value.length != 0 then
    ({ e1 with m_isValid := false }, true)
  else
    ({ e1 with m_manufacturerName :=
        { type := LabelType.TEXT, value := text, locale := some locale } },
      flagText || flagLocale)

/-- `EndpointResources::addDescriptionWithAssetId` (lines 145-159). -/
def EndpointResources.addDescriptionWithAssetId (e : EndpointResources)
    (assetId : String) : EndpointResources × Bool :=
  if assetId.length == 0 then
    ({ e with m_isValid := false }, true)
  else if e.m_description.value.length != 0 then
    ({ e with m_isValid := false }, true)
  else
    ({ e with m_description :=
        { type := LabelType.ASSET, value := assetId, locale := none } }, false)

/-- `EndpointResources::addDescriptionWithText` (lines 161-181); same control flow as
`addManufacturerNameWithText`. -/
def EndpointResources.addDescriptionWithText (e : EndpointResources)
    (text locale : String) : EndpointResources × Bool :=
  let flagText := text.length == 0 || text.length > MAX_DESCRIPTION_LENGTH
  let flagLocale := locale == ""
  let e1 := if flagText || flagLocale then { e with m_isValid := false } else e
  if e1.m_description.value.length != 0 then
    ({ e1 with m_isValid := false }, true)
  else
    ({ e1 with m_description :=
        { type := LabelType.TEXT, value := text, locale := some locale } },
      flagText || flagLocale)

/-- `EndpointResources::isValid` (lines 183-186). -/
def EndpointResources.isValid (e : EndpointResources) : Bool :=
  e.m_isValid && e.m_friendlyNames.length > 0 && e.m_description.value.length > 0 &&
    e.m_manufacturerName.value.length > 0

/-- Modelled from the spec: `utils::json::JsonGenerator` is not part of the verified
core.  It is the SDK's JSON object writer: members accumulate in insertion order;
`addMembersArray(key, vals)` writes `"key":[v1,...,vn]` with the elements inserted as
raw JSON; `addRawJsonMember(key, v)` writes `"key":v` with `v` raw;
`toString` wraps the comma-separated members in braces.  String escaping is omitted:
no claim depends on it. -/
structure JsonGenerator where
  members : List String
deriving DecidableEq, Repr

/-- Modelled from the spec: the comma-separated join of JSON members. -/
def joinMembers : List String → String
  | [] => ""
  | [m] => m
  | m :: rest => m ++ "," ++ joinMembers rest

/-- Modelled from the spec: a freshly constructed `JsonGenerator` holds no members. -/
def JsonGenerator.construct : JsonGenerator := { members := [] }

/-- Modelled from the spec: `JsonGenerator::addMembersArray`. -/
def JsonGenerator.addMembersArray (g : JsonGenerator) (key : String)
    (vals : List String) : JsonGenerator :=
  { members := g.members ++ ["\"" ++ key ++ "\":[" ++ joinMembers vals ++ "]"] }

/-- Modelled from the spec: `JsonGenerator::addRawJsonMember`. -/
def JsonGenerator.addRawJsonMember (g : JsonGenerator) (key v : String) : JsonGenerator :=
  { members := g.members ++ ["\"" ++ key ++ "\":" ++ v] }

/-- Modelled from the spec: `JsonGenerator::toString` closes the JSON object. -/
def JsonGenerator.render (g : JsonGenerator) : String :=
  "\x7b" ++ joinMembers g.members ++ "\x7d"

/-- `EndpointResources::Label::toJson` (lines 204-219), with the writer inlined:
a TEXT label renders as an object with `@type` `"text"` and a `value` object holding
`text` and `locale` (the C++ `locale.value()` of an engaged optional; TEXT labels are
stored only with an engaged locale, and a default `Optional::value()` is embedded as
`getD ""`); an ASSET label renders with `@type` `"asset"` and the `assetId`. -/
def Label.toJson (l : Label) : String :=
  match l.type with
  | LabelType.TEXT =>
    "\x7b\"@type\":\"text\",\"value\":\x7b\"text\":\"" ++ l.value ++
      "\",\"locale\":\"" ++ l.locale.getD "" ++ "\"\x7d\x7d"
  | LabelType.ASSET =>
    "\x7b\"@type\":\"asset\",\"value\":\x7b\"assetId\":\"" ++ l.value ++ "\"\x7d\x7d"

/-- `EndpointResources::build` (lines 188-202): empty string when invalid; otherwise
the JSON object with the `friendlyNames` array, the raw `manufacturerName` member and
the raw `description` member. -/
def EndpointResources.build (e : EndpointResources) : String :=
  if !e.isValid then ""
  else
    (((JsonGenerator.construct.addMembersArray "friendlyNames"
        (e.m_friendlyNames.map Label.toJson)).addRawJsonMember "manufacturerName"
          e.m_manufacturerName.toJson).addRawJsonMember "description"
            e.m_description.toJson).render

/-- One call to an `add…` method of `EndpointResources`. -/
inductive EndpointResourcesOp where
  | addFriendlyNameWithAssetId (assetId : String)
  | addFriendlyNameWithText (text locale : String)
  | addManufacturerNameWithAssetId (assetId : String)
  | addManufacturerNameWithText (text locale : String)
  | addDescriptionWithAssetId (assetId : String)
  | addDescriptionWithText (text locale : String)
deriving DecidableEq, Repr

/-- Apply one `add…` call; the boolean records whether it flagged an error. -/
def applyEndpointOp (e : EndpointResources) : EndpointResourcesOp → EndpointResources × Bool
  | .addFriendlyNameWithAssetId assetId => e.addFriendlyNameWithAssetId assetId
  | .addFriendlyNameWithText text locale => e.addFriendlyNameWithText text locale
  | .addManufacturerNameWithAssetId assetId => e.addManufacturerNameWithAssetId assetId
  | .addManufacturerNameWithText text locale => e.addManufacturerNameWithText text locale
  | .addDescriptionWithAssetId assetId => e.addDescriptionWithAssetId assetId
  | .addDescriptionWithText text locale => e.addDescriptionWithText text locale

/-- Run a sequence of `add…` calls from the freshly constructed object; the boolean
records whether any call flagged an error. -/
def endpointResourcesRun (ops : List EndpointResourcesOp) : EndpointResources × Bool :=
  ops.foldl (fun acc op =>
    let r := applyEndpointOp acc.1 op
    (r.1, acc.2 || r.2)) (EndpointResources.construct, false)

/-!  Concrete sample data used by the witness theorems. -/

/-- A concrete directive. -/
def sampleDirective : AVSDirective :=
  { name := "Speak", dialogRequestId := "dialog-1", messageId := "message-1"
    unparsedDirective := "unparsed-1", headerAsString := "header-1" }

/-- A second concrete directive, with an empty dialog-request id. -/
def sampleDialoglessDirective : AVSDirective :=
  { name := "StopCapture", dialogRequestId := "", messageId := "message-2"
    unparsedDirective := "unparsed-2", headerAsString := "header-2" }

/-- A concrete dispatch environment: build option on, router accepts everything, and
the processor rejects everything. -/
def sampleEnv : DispatchEnv :=
  { dialogRequestIdInAllResponseDirectives := true
    routerHandleImmediately := fun _ => true
    processorOnDirective := fun _ => false }

/-!  Helper lemmas. -/

/-- No sequencer operation re-enables a disabled sequencer except `enable`. -/
theorem m_isEnabled_false_preserved (env : DispatchEnv) :
    ∀ (ops : List SequencerOp) (s : DirectiveSequencer), SequencerOp.enable ∉ ops →
      s.m_isEnabled = false → (runOps env s ops).m_isEnabled = false := by
  intro ops
  induction ops with
  | nil => intro s _ h; exact h
  | cons op rest ih =>
    intro s hmem h
    have hop : op ≠ SequencerOp.enable := by
      intro he
      exact hmem (he ▸ List.mem_cons_self op rest)
    have hrest : SequencerOp.enable ∉ rest := fun hr => hmem (List.mem_cons_of_mem _ hr)
    have hstep : (stepOp env s op).m_isEnabled = false := by
      cases op with
      | onDirective d =>
        cases d with
        | none => exact h
        | some dir =>
          simp only [stepOp, DirectiveSequencer.onDirective, h]
          split <;> simp [h]
      | enable => exact absurd rfl hop
      | _ => simp [stepOp, DirectiveSequencer.disable, DirectiveSequencer.setDialogRequestId, h]
    simpa [runOps, List.foldl_cons] using ih (stepOp env s op) hrest hstep

/-- In a disabled (or shutting-down) state, `onDirective` rejects and changes
nothing. -/
theorem onDirective_rejects_of_disabled (s : DirectiveSequencer)
    (h : s.m_isEnabled = false) (d : Option AVSDirective) :
    s.onDirective d = (false, s) := by
  cases d with
  | none => rfl
  | some dir => simp [DirectiveSequencer.onDirective, h]

/-!  Claim theorems. -/

/-- Claim C1. `DirectiveSequencer::onDirective` returns `false` iff the directive is
null, the sequencer is shutting down, or the sequencer is disabled; in every other
case it returns `true` and appends the directive to the back of the intake queue; and
in any state reached from a `disable()` call by operations that do not include
`enable()`, `onDirective` returns `false` and leaves the state (in particular the
intake queue) unchanged. -/
theorem onDirective_false_iff (s : DirectiveSequencer) (d : Option AVSDirective) :
    ((s.onDirective d).1 = false ↔
      d = none ∨ s.m_isShuttingDown = true ∨ s.m_isEnabled = false)
    ∧ (∀ dir, d = some dir → (s.onDirective d).1 = true →
        s.onDirective d = (true, { s with m_receivingQueue := s.m_receivingQueue ++ [dir] }))
    ∧ (∀ (env : DispatchEnv) (ops : List SequencerOp), SequencerOp.enable ∉ ops →
        (runOps env s.disable ops).onDirective d = (false, runOps env s.disable ops)) := by
  refine ⟨?_, ?_, ?_⟩
  · cases d with
    | none => simp [DirectiveSequencer.onDirective]
    | some dir =>
      simp only [DirectiveSequencer.onDirective]
      constructor
      · intro hfalse
        by_cases hsd : s.m_isShuttingDown = true
        · exact Or.inr (Or.inl hsd)
        · by_cases hen : s.m_isEnabled = false
          · exact Or.inr (Or.inr hen)
          · exfalso
            rw [Bool.not_eq_true] at hsd
            rw [Bool.not_eq_false] at hen
            simp [hsd, hen] at hfalse
      · rintro (h | h | h)
        · exact absurd h (by simp)
        · simp [h]
        · simp [h]
  · intro dir hd htrue
    subst hd
    simp only [DirectiveSequencer.onDirective] at htrue ⊢
    split at htrue
    · exact absurd htrue (by simp)
    · simp_all
  · intro env ops hmem
    have hdis : (DirectiveSequencer.disable s).m_isEnabled = false := rfl
    exact onDirective_rejects_of_disabled _
      (m_isEnabled_false_preserved env ops s.disable hmem hdis) d

/-- Witness for C1: after `disable()` followed by further non-`enable` operations, a
concrete directive is rejected and the state is unchanged. -/
theorem onDirective_false_iff_witness :
    SequencerOp.enable ∉ ([SequencerOp.disable, SequencerOp.receiveOne] : List SequencerOp)
    ∧ (runOps sampleEnv DirectiveSequencer.construct.disable
          [SequencerOp.disable, SequencerOp.receiveOne]).onDirective (some sampleDirective)
        = (false, runOps sampleEnv DirectiveSequencer.construct.disable
            [SequencerOp.disable, SequencerOp.receiveOne]) :=
  ⟨by decide,
    (onDirective_false_iff DirectiveSequencer.construct (some sampleDirective)).2.2
      sampleEnv [SequencerOp.disable, SequencerOp.receiveOne] (by decide)⟩

/-- Claim C2. For a dequeued directive, if the chosen dispatch path returned `false`
then `sendExceptionEncountered` is called exactly once for it, with
`UNSUPPORTED_OPERATION` and the directive's unparsed text; if the chosen path
returned `true`, no exception call at all is made while dispatching it. -/
theorem dispatch_exception_iff_unhandled (env : DispatchEnv) (d : AVSDirective)
    (rest : List AVSDirective) :
    ((receiveDirectiveLocked env (d :: rest)).2.count
        (DispatchEvent.sendExceptionEncountered d.unparsedDirective
          ExceptionErrorType.UNSUPPORTED_OPERATION "Unsupported operation")
      = if chosenPathResult env d = true then 0 else 1)
    ∧ (chosenPathResult env d = true →
        (receiveDirectiveLocked env (d :: rest)).2.countP (fun e => e.isException) = 0)
    ∧ (chosenPathResult env d = false →
        (receiveDirectiveLocked env (d :: rest)).2.countP (fun e => e.isException) = 1) := by
  simp only [receiveDirectiveLocked]
  rcases hres : chosenPathResult env d with _ | _ <;>
    rcases him : chosenPathIsImmediate env d with _ | _ <;>
      simp [List.count_cons, List.countP_cons, DispatchEvent.isException]

/-- Witness for C2: in `sampleEnv` the processor path rejects `sampleDirective`
(non-empty dialog id, processor oracle returns `false`), so exactly one exception
call is made. -/
theorem dispatch_exception_iff_unhandled_witness :
    chosenPathResult sampleEnv sampleDirective = false
    ∧ (receiveDirectiveLocked sampleEnv [sampleDirective]).2.countP
        (fun e => e.isException) = 1 :=
  ⟨by decide,
    (dispatch_exception_iff_unhandled sampleEnv sampleDirective []).2.2 (by decide)⟩

/-- Claim C3. With the build-time option `DIALOG_REQUEST_ID_IN_ALL_RESPONSE_DIRECTIVES`
on, a dequeued directive with an empty dialog-request id goes to
`DirectiveRouter::handleDirectiveImmediately` and one with a non-empty dialog-request
id goes to `DirectiveProcessor::onDirective`; with the option off, every dequeued
directive goes to `DirectiveProcessor::onDirective`. -/
theorem dispatch_path_choice (env : DispatchEnv) (d : AVSDirective)
    (rest : List AVSDirective) :
    (env.dialogRequestIdInAllResponseDirectives = true →
      (d.dialogRequestId = "" →
        (receiveDirectiveLocked env (d :: rest)).2.head?
          = some (DispatchEvent.handleDirectiveImmediately d))
      ∧ (d.dialogRequestId ≠ "" →
          (receiveDirectiveLocked env (d :: rest)).2.head?
            = some (DispatchEvent.processorOnDirective d)))
    ∧ (env.dialogRequestIdInAllResponseDirectives = false →
        (receiveDirectiveLocked env (d :: rest)).2.head?
          = some (DispatchEvent.processorOnDirective d)) := by
  refine ⟨fun hflag => ⟨fun hid => ?_, fun hid => ?_⟩, fun hflag => ?_⟩
  · simp [receiveDirectiveLocked, chosenPathIsImmediate, hflag, hid]
  · simp [receiveDirectiveLocked, chosenPathIsImmediate, hflag, hid]
  · simp [receiveDirectiveLocked, chosenPathIsImmediate, hflag]

/-- Witness for C3: with the option on, a dialogless directive is dispatched via the
immediate router path. -/
theorem dispatch_path_choice_witness :
    sampleEnv.dialogRequestIdInAllResponseDirectives = true
    ∧ sampleDialoglessDirective.dialogRequestId = ""
    ∧ (receiveDirectiveLocked sampleEnv [sampleDialoglessDirective]).2.head?
        = some (DispatchEvent.handleDirectiveImmediately sampleDialoglessDirective) :=
  ⟨rfl, rfl,
    ((dispatch_path_choice sampleEnv sampleDialoglessDirective []).1 rfl).1 rfl⟩

/-- Claim C4. `doShutdown` performs, in this order: set the shutting-down flag and
wake the receiving thread (positions 0 and 1), join the receiving thread, shut down
the processor, shut down the router; and when the power resource is non-null, it is
released by the receiving thread among its loop-exit calls, before `join` returns —
hence before `doShutdown` returns. -/
theorem doShutdown_event_order (hasPower : Bool) :
    ((doShutdownEvents hasPower).indexOf LifecycleEvent.setShuttingDownFlag = 0
      ∧ (doShutdownEvents hasPower).indexOf LifecycleEvent.wakeReceivingLoop = 1)
    ∧ (doShutdownEvents hasPower).indexOf LifecycleEvent.wakeReceivingLoop
        < (doShutdownEvents hasPower).indexOf LifecycleEvent.receivingThreadJoined
    ∧ (doShutdownEvents hasPower).indexOf LifecycleEvent.receivingThreadJoined
        < (doShutdownEvents hasPower).indexOf LifecycleEvent.processorShutdown
    ∧ (doShutdownEvents hasPower).indexOf LifecycleEvent.processorShutdown
        < (doShutdownEvents hasPower).indexOf LifecycleEvent.routerShutdown
    ∧ (hasPower = true →
        LifecycleEvent.powerRelease ∈ receivingLoopExitEvents hasPower
        ∧ LifecycleEvent.powerRelease ∈ doShutdownEvents hasPower
        ∧ (doShutdownEvents hasPower).indexOf LifecycleEvent.powerRelease
            < (doShutdownEvents hasPower).indexOf LifecycleEvent.receivingThreadJoined) := by
  cases hasPower <;> decide

/-- Witness for C4: with a non-null power resource, the release happens before the
join returns. -/
theorem doShutdown_event_order_witness :
    LifecycleEvent.powerRelease ∈ receivingLoopExitEvents true
    ∧ LifecycleEvent.powerRelease ∈ doShutdownEvents true
    ∧ (doShutdownEvents true).indexOf LifecycleEvent.powerRelease
        < (doShutdownEvents true).indexOf LifecycleEvent.receivingThreadJoined :=
  (doShutdown_event_order true).2.2.2.2 rfl

/-- Claim C5. `disable()` clears the sequencer's enabled flag, sets the processor's
dialog-request id to `""` and disables the processor; `enable()` sets the enabled
flag and enables the processor; neither call modifies the intake queue. -/
theorem disable_enable_effects (s : DirectiveSequencer) :
    s.disable.m_isEnabled = false
    ∧ s.disable.m_directiveProcessor.dialogRequestId = ""
    ∧ s.disable.m_directiveProcessor.isEnabled = false
    ∧ s.enable.m_isEnabled = true
    ∧ s.enable.m_directiveProcessor.isEnabled = true
    ∧ s.disable.m_receivingQueue = s.m_receivingQueue
    ∧ s.enable.m_receivingQueue = s.m_receivingQueue :=
  ⟨rfl, rfl, rfl, rfl, rfl, rfl, rfl⟩

/-- Claim C7. With a non-null power resource: the constructor acquires it exactly
once; over the whole lifecycle it is acquired exactly once and released exactly once
(the release occurring among the receiving thread's loop-exit calls); no API
operation makes any power call; and at every point after construction and before
shutdown the acquire count exceeds the release count by exactly one. -/
theorem powerResource_accounting (ops : List SequencerOp) :
    (constructorEvents true).count LifecycleEvent.powerAcquire = 1
    ∧ (lifecycleTrace true ops).count LifecycleEvent.powerAcquire = 1
    ∧ (lifecycleTrace true ops).count LifecycleEvent.powerRelease = 1
    ∧ (doShutdownEvents true).count LifecycleEvent.powerRelease = 1
    ∧ LifecycleEvent.powerRelease ∈ receivingLoopExitEvents true
    ∧ (∀ op, opLifecycleEvents op = [])
    ∧ (∀ n, 0 < n →
        ((constructorEvents true ++ ops.flatMap opLifecycleEvents).take n).count
            LifecycleEvent.powerAcquire
          = ((constructorEvents true ++ ops.flatMap opLifecycleEvents).take n).count
              LifecycleEvent.powerRelease + 1) := by
  have hflat : ops.flatMap opLifecycleEvents = [] := by
    induction ops with
    | nil => rfl
    | cons op rest ih => simp [List.flatMap_cons, opLifecycleEvents, ih]
  refine ⟨rfl, ?_, ?_, rfl, by decide, fun _ => rfl, ?_⟩
  · simp [lifecycleTrace, hflat]
    decide
  · simp [lifecycleTrace, hflat]
    decide
  · intro n hn
    rw [hflat]
    cases n with
    | zero => exact absurd hn (by decide)
    | succ m => simp [constructorEvents, List.take_succ_cons, List.count_cons]

/-- Witness for C7: after one API operation, the acquisition is still held. -/
theorem powerResource_accounting_witness :
    (0 : Nat) < 1
    ∧ ((constructorEvents true ++
          [SequencerOp.disable].flatMap opLifecycleEvents).take 1).count
          LifecycleEvent.powerAcquire
        = ((constructorEvents true ++
            [SequencerOp.disable].flatMap opLifecycleEvents).take 1).count
            LifecycleEvent.powerRelease + 1 :=
  ⟨by decide, (powerResource_accounting [SequencerOp.disable]).2.2.2.2.2.2 1 (by decide)⟩

/-- A concrete registration manager for the C8 witness. -/
def sampleRegistrationManager : RegistrationManager :=
  { m_directiveSequencer := DirectiveSequencer.construct
    connectionManagerEnabled := true
    customerDataCleared := false
    m_observers := ["observer-1", "observer-2"] }

/-- Claim C8. `RegistrationManager::logout` disables the directive sequencer first
(position 0), then the connection manager (position 1), then clears customer data
(position 2), and every observer's `onLogout` call comes strictly after the data is
cleared; at the moment the observers run the sequencer is already disabled, so it
rejects every incoming directive. -/
theorem logout_order_and_gating (r : RegistrationManager) :
    (r.logout.2.indexOf LogoutEvent.directiveSequencerDisable = 0
      ∧ r.logout.2.indexOf LogoutEvent.connectionManagerDisable = 1
      ∧ r.logout.2.indexOf LogoutEvent.clearData = 2)
    ∧ (∀ o, r.logout.2.indexOf LogoutEvent.clearData
        < r.logout.2.indexOf (LogoutEvent.observerOnLogout o))
    ∧ r.logout.1.m_directiveSequencer.m_isEnabled = false
    ∧ (∀ d, r.logout.1.m_directiveSequencer.onDirective d
        = (false, r.logout.1.m_directiveSequencer)) := by
  have hev : r.logout.2 = LogoutEvent.directiveSequencerDisable ::
      LogoutEvent.connectionManagerDisable :: LogoutEvent.clearData ::
      (r.m_observers.map LogoutEvent.observerOnLogout ++ [LogoutEvent.submitLogoutMetric]) := by
    simp [RegistrationManager.logout, RegistrationManager.notifyObservers]
  refine ⟨⟨?_, ?_, ?_⟩, ?_, rfl, ?_⟩
  · rw [hev, List.indexOf_cons_self]
  · rw [hev, List.indexOf_cons_ne _ (by simp), List.indexOf_cons_self]
  · rw [hev, List.indexOf_cons_ne _ (by simp), List.indexOf_cons_ne _ (by simp),
      List.indexOf_cons_self]
  · intro o
    rw [hev, List.indexOf_cons_ne _ (by simp), List.indexOf_cons_ne _ (by simp),
      List.indexOf_cons_self, List.indexOf_cons_ne _ (by simp),
      List.indexOf_cons_ne _ (by simp), List.indexOf_cons_ne _ (by simp)]
    omega
  · exact fun d => onDirective_rejects_of_disabled _ rfl d

/-- Witness for C8: on a concrete registration manager, after `logout` the sequencer
rejects a concrete directive and the observer calls come after the data clearing. -/
theorem logout_order_and_gating_witness :
    sampleRegistrationManager.logout.2.indexOf LogoutEvent.clearData
      < sampleRegistrationManager.logout.2.indexOf (LogoutEvent.observerOnLogout "observer-1")
    ∧ sampleRegistrationManager.logout.1.m_directiveSequencer.onDirective
        (some sampleDirective)
      = (false, sampleRegistrationManager.logout.1.m_directiveSequencer) :=
  ⟨(logout_order_and_gating sampleRegistrationManager).2.1 "observer-1",
    (logout_order_and_gating sampleRegistrationManager).2.2.2 (some sampleDirective)⟩

/-- On a non-empty queue, one iteration of the receiving loop removes exactly the
front element and hands exactly that element to a dispatch path. -/
theorem receiveDirectiveLocked_front (env : DispatchEnv) (d : AVSDirective)
    (rest : List AVSDirective) :
    (receiveDirectiveLocked env (d :: rest)).1 = rest
    ∧ (receiveDirectiveLocked env (d :: rest)).2.filterMap DispatchEvent.dispatchTarget
        = [d] := by
  refine ⟨rfl, ?_⟩
  simp only [receiveDirectiveLocked]
  rcases chosenPathResult env d with _ | _ <;>
    rcases chosenPathIsImmediate env d with _ | _ <;>
      simp [DispatchEvent.dispatchTarget]

/-- One step of a bookkept run preserves the FIFO accounting invariant. -/
theorem runStep_preserves_fifo (env : DispatchEnv) (r : RunResult) (op : SequencerOp)
    (h : r.accepted = r.dispatched ++ r.state.m_receivingQueue) :
    (runStep env r op).accepted
      = (runStep env r op).dispatched ++ (runStep env r op).state.m_receivingQueue := by
  cases op with
  | onDirective d =>
    cases d with
    | none => simpa [runStep, DirectiveSequencer.onDirective] using h
    | some dir =>
      by_cases hc : (r.state.m_isShuttingDown || !r.state.m_isEnabled) = true
      · simp [runStep, DirectiveSequencer.onDirective, hc, h]
      · simp [runStep, DirectiveSequencer.onDirective, hc, h]
  | receiveOne =>
    cases hq : r.state.m_receivingQueue with
    | nil =>
      rw [hq] at h
      simp [runStep, receiveDirectiveLocked, hq, h]
    | cons d rest =>
      rw [hq] at h
      have hfront := receiveDirectiveLocked_front env d rest
      simp [runStep, hq, hfront.1, hfront.2, h]
  | setDialogRequestId id => simpa [runStep, stepOp, DirectiveSequencer.setDialogRequestId]
      using h
  | addDirectiveHandler => simpa [runStep, stepOp] using h
  | removeDirectiveHandler => simpa [runStep, stepOp] using h
  | disable => simpa [runStep, stepOp, DirectiveSequencer.disable] using h
  | enable => simpa [runStep, stepOp, DirectiveSequencer.enable] using h

/-- The FIFO accounting invariant holds after any sequence of steps. -/
theorem foldl_runStep_fifo (env : DispatchEnv) :
    ∀ (ops : List SequencerOp) (r : RunResult),
      r.accepted = r.dispatched ++ r.state.m_receivingQueue →
      (ops.foldl (runStep env) r).accepted
        = (ops.foldl (runStep env) r).dispatched
            ++ (ops.foldl (runStep env) r).state.m_receivingQueue := by
  intro ops
  induction ops with
  | nil => intro r h; exact h
  | cons op rest ih =>
    intro r h
    exact ih _ (runStep_preserves_fifo env r op h)

/-- Claim C6. The intake queue is FIFO with respect to `onDirective` return order:
in any run, the sequence of directives accepted so far equals the sequence dispatched
so far followed by the queue contents; hence the dispatched sequence is a prefix of
the accepted sequence (so any two accepted directives are dispatched in acceptance
order); and each iteration of the receiving loop removes exactly the front element of
the queue and dispatches exactly it. -/
theorem intake_fifo (env : DispatchEnv) (ops : List SequencerOp) :
    (fullRun env ops).accepted
      = (fullRun env ops).dispatched ++ (fullRun env ops).state.m_receivingQueue
    ∧ (∃ t, (fullRun env ops).dispatched ++ t = (fullRun env ops).accepted)
    ∧ (∀ (d : AVSDirective) (rest : List AVSDirective),
        (receiveDirectiveLocked env (d :: rest)).1 = rest
        ∧ (receiveDirectiveLocked env (d :: rest)).2.filterMap
            DispatchEvent.dispatchTarget = [d]) := by
  have inv := foldl_runStep_fifo env ops
    { state := DirectiveSequencer.construct, accepted := [], dispatched := [] } rfl
  exact ⟨inv, ⟨_, inv.symm⟩, fun d rest => receiveDirectiveLocked_front env d rest⟩

/-- Witness for C6: a concrete run accepting two directives and dispatching one. -/
theorem intake_fifo_witness :
    (fullRun sampleEnv [SequencerOp.onDirective (some sampleDirective),
        SequencerOp.onDirective (some sampleDialoglessDirective),
        SequencerOp.receiveOne]).accepted
      = (fullRun sampleEnv [SequencerOp.onDirective (some sampleDirective),
          SequencerOp.onDirective (some sampleDialoglessDirective),
          SequencerOp.receiveOne]).dispatched
        ++ (fullRun sampleEnv [SequencerOp.onDirective (some sampleDirective),
            SequencerOp.onDirective (some sampleDialoglessDirective),
            SequencerOp.receiveOne]).state.m_receivingQueue :=
  (intake_fifo sampleEnv [SequencerOp.onDirective (some sampleDirective),
    SequencerOp.onDirective (some sampleDialoglessDirective),
    SequencerOp.receiveOne]).1

/-- A string with positive length is not the empty string, and conversely. -/
theorem string_length_pos_iff (s : String) : 0 < s.length ↔ s ≠ "" := by
  constructor
  · intro h he
    rw [he] at h
    simp [String.length] at h
  · intro h
    rcases Nat.eq_zero_or_pos s.length with h0 | hpos
    · exact absurd (String.ext_iff.mpr (List.length_eq_zero.mp h0)) h
    · exact hpos

/-- Appending a non-empty string on the right yields a non-empty string. -/
theorem append_ne_empty_of_right (s t : String) (h : t ≠ "") : s ++ t ≠ "" := by
  intro hc
  apply h
  have hlen := congrArg String.length hc
  rw [String.length_append] at hlen
  have h0 : String.length "" = 0 := rfl
  rw [h0] at hlen
  have ht : t.length = 0 := by omega
  have ht' : t.data.length = 0 := ht
  exact String.ext_iff.mpr (List.length_eq_zero.mp ht')

/-- Each `add…` call leaves `m_isValid` true exactly when it was true before and the
call flagged no error. -/
theorem applyEndpointOp_isValid (e : EndpointResources) (op : EndpointResourcesOp) :
    (applyEndpointOp e op).1.m_isValid = (e.m_isValid && !(applyEndpointOp e op).2) := by
  cases op <;>
    simp only [applyEndpointOp, EndpointResources.addFriendlyNameWithAssetId,
      EndpointResources.addFriendlyNameWithText,
      EndpointResources.addManufacturerNameWithAssetId,
      EndpointResources.addManufacturerNameWithText,
      EndpointResources.addDescriptionWithAssetId,
      EndpointResources.addDescriptionWithText] <;>
    split_ifs <;> simp_all
  all_goals
    intro _ h0 hM
    rcases ‹(_ ∨ _) ∨ _› with h | h
    · rcases h with h | h
      · exact absurd h h0
      · exact absurd h (by omega)
    · exact h

/-- Over a run from the freshly constructed object, `m_isValid` is true exactly when
no call flagged an error. -/
theorem endpointResourcesRun_isValid (ops : List EndpointResourcesOp) :
    (endpointResourcesRun ops).1.m_isValid = !(endpointResourcesRun ops).2 := by
  have hgen : ∀ (l : List EndpointResourcesOp) (acc : EndpointResources × Bool),
      acc.1.m_isValid = !acc.2 →
      (l.foldl (fun acc op =>
        let r := applyEndpointOp acc.1 op
        (r.1, acc.2 || r.2)) acc).1.m_isValid
        = !(l.foldl (fun acc op =>
            let r := applyEndpointOp acc.1 op
            (r.1, acc.2 || r.2)) acc).2 := by
    intro l
    induction l with
    | nil => intro acc h; exact h
    | cons op rest ih =>
      intro acc h
      refine ih _ ?_
      simp only [applyEndpointOp_isValid, h, Bool.not_or, Bool.and_comm]
  exact hgen ops (EndpointResources.construct, false) rfl

/-- When the resources are valid, `build` produces the JSON object with the
`friendlyNames` array, the `manufacturerName` member, and the `description`
member. -/
theorem build_of_valid (e : EndpointResources) (h : e.isValid = true) :
    e.build = "\x7b\"friendlyNames\":["
      ++ joinMembers (e.m_friendlyNames.map Label.toJson)
      ++ "],\"manufacturerName\":" ++ e.m_manufacturerName.toJson
      ++ ",\"description\":" ++ e.m_description.toJson ++ "\x7d" := by
  simp only [EndpointResources.build, h, Bool.not_true, Bool.false_eq_true, if_false,
    JsonGenerator.construct, JsonGenerator.addMembersArray, JsonGenerator.addRawJsonMember,
    JsonGenerator.render, List.nil_append, List.cons_append, List.append_nil, joinMembers,
    String.append_assoc]
  rfl

/-- Claim C9. `build` returns `""` iff `isValid()` is false; when valid, `build`
returns a non-empty JSON string carrying the `friendlyNames` array, the
`manufacturerName`, and the `description`; and `isValid()` is true iff no `add…`
call ever flagged an error, at least one friendly name was added, and a non-empty
manufacturer name and a non-empty description have been set. -/
theorem endpointResources_build_spec (ops : List EndpointResourcesOp) :
    ((endpointResourcesRun ops).1.build = "" ↔ (endpointResourcesRun ops).1.isValid = false)
    ∧ ((endpointResourcesRun ops).1.isValid = true →
        (endpointResourcesRun ops).1.build ≠ ""
        ∧ ∃ a b c, (endpointResourcesRun ops).1.build
            = "\x7b\"friendlyNames\":[" ++ a ++ "],\"manufacturerName\":" ++ b
              ++ ",\"description\":" ++ c ++ "\x7d")
    ∧ ((endpointResourcesRun ops).1.isValid = true ↔
        (endpointResourcesRun ops).2 = false
        ∧ (endpointResourcesRun ops).1.m_friendlyNames ≠ []
        ∧ (endpointResourcesRun ops).1.m_manufacturerName.value ≠ ""
        ∧ (endpointResourcesRun ops).1.m_description.value ≠ "") := by
  have hne : (endpointResourcesRun ops).1.isValid = true →
      (endpointResourcesRun ops).1.build ≠ "" := by
    intro hv
    rw [build_of_valid _ hv]
    exact append_ne_empty_of_right _ _ (by decide)
  refine ⟨?_, fun hv => ⟨hne hv, _, _, _, build_of_valid _ hv⟩, ?_⟩
  · rcases hv : (endpointResourcesRun ops).1.isValid with _ | _
    · simp [EndpointResources.build, hv]
    · constructor
      · intro hb
        exact absurd hb (hne hv)
      · intro hfalse
        exact absurd hfalse (by decide)
  · have hval := endpointResourcesRun_isValid ops
    simp only [EndpointResources.isValid, Bool.and_eq_true, decide_eq_true_eq, hval,
      Bool.not_eq_true', List.length_pos, string_length_pos_iff]
    tauto

/-- A run of three valid `add…` calls, used by the C9 witness. -/
def sampleEndpointOps : List EndpointResourcesOp :=
  [EndpointResourcesOp.addFriendlyNameWithText "Kitchen" "en-US",
   EndpointResourcesOp.addManufacturerNameWithText "Amazon" "en-US",
   EndpointResourcesOp.addDescriptionWithText "Smart speaker" "en-US"]

/-- Witness for C9: after three valid `add…` calls the resources are valid and
`build` is non-empty. -/
theorem endpointResources_build_spec_witness :
    (endpointResourcesRun sampleEndpointOps).1.isValid = true
    ∧ (endpointResourcesRun sampleEndpointOps).1.build ≠ "" :=
  ⟨by decide, ((endpointResources_build_spec sampleEndpointOps).2.1 (by decide)).1⟩

/-- Claim C10. For valid text and locale, `addFriendlyNameWithText` is idempotent:
a duplicate `(text, locale)` add is a no-op that leaves the list and the validity
flag unchanged; whereas `addFriendlyNameWithAssetId` with an already present asset
id leaves the list unchanged but sets the object invalid — the two duplicate cases
are not symmetric. -/
theorem addFriendlyName_duplicate_asymmetry (e : EndpointResources)
    (text locale assetId : String) :
    (0 < text.length → text.length ≤ MAX_FRIENDLY_NAME_LENGTH → locale ≠ "" →
      ((e.addFriendlyNameWithText text locale).1.addFriendlyNameWithText text locale).1
        = (e.addFriendlyNameWithText text locale).1)
    ∧ (e.m_friendlyNames.any (fun l =>
          Label.beq l { type := LabelType.TEXT, value := text, locale := some locale })
            = true →
        0 < text.length → text.length ≤ MAX_FRIENDLY_NAME_LENGTH → locale ≠ "" →
        e.addFriendlyNameWithText text locale = (e, false))
    ∧ (e.m_friendlyNames.any (fun l =>
          Label.beq l { type := LabelType.ASSET, value := assetId, locale := none })
            = true →
        (e.addFriendlyNameWithAssetId assetId).1.m_friendlyNames = e.m_friendlyNames
        ∧ (e.addFriendlyNameWithAssetId assetId).1.m_isValid = false) := by
  have hcond : 0 < text.length → text.length ≤ MAX_FRIENDLY_NAME_LENGTH →
      (text.length == 0 || decide (text.length > MAX_FRIENDLY_NAME_LENGTH)) = false := by
    intro h0 hM
    simp only [Bool.or_eq_false_iff, beq_eq_false_iff_ne, ne_eq, decide_eq_false_iff_not,
      not_lt]
    omega
  refine ⟨?_, ?_, ?_⟩
  · intro h0 hM hloc
    have h1 := hcond h0 hM
    have h2 : (locale == "") = false := by simp [hloc]
    by_cases hdup : e.m_friendlyNames.any (fun l =>
        Label.beq l { type := LabelType.TEXT, value := text, locale := some locale }) = true
    · simp [EndpointResources.addFriendlyNameWithText, h1, h2, hdup]
    · rw [Bool.not_eq_true] at hdup
      have hself : Label.beq { type := LabelType.TEXT, value := text, locale := some locale }
          { type := LabelType.TEXT, value := text, locale := some locale } = true := by
        simp [Label.beq]
      simp [EndpointResources.addFriendlyNameWithText, h1, h2, hdup, List.any_append, hself]
  · intro hdup h0 hM hloc
    have h1 := hcond h0 hM
    have h2 : (locale == "") = false := by simp [hloc]
    simp [EndpointResources.addFriendlyNameWithText, h1, h2, hdup]
  · intro hdup
    by_cases hlen : (assetId.length == 0) = true
    · simp [EndpointResources.addFriendlyNameWithAssetId, hlen]
    · rw [Bool.not_eq_true] at hlen
      simp [EndpointResources.addFriendlyNameWithAssetId, hlen, hdup]

/-- The resources with one asset-id friendly name, used by the C10 witness. -/
def sampleEndpointWithAsset : EndpointResources :=
  (EndpointResources.construct.addFriendlyNameWithAssetId "asset-1").1

/-- Witness for C10: a concrete duplicate text add is a no-op, while a concrete
duplicate asset-id add invalidates the object without touching the list. -/
theorem addFriendlyName_duplicate_asymmetry_witness :
    ((EndpointResources.construct.addFriendlyNameWithText "Kitchen"
        "en-US").1.addFriendlyNameWithText "Kitchen" "en-US").1
      = (EndpointResources.construct.addFriendlyNameWithText "Kitchen" "en-US").1
    ∧ ((sampleEndpointWithAsset.addFriendlyNameWithAssetId "asset-1").1.m_friendlyNames
          = sampleEndpointWithAsset.m_friendlyNames
        ∧ (sampleEndpointWithAsset.addFriendlyNameWithAssetId "asset-1").1.m_isValid
            = false) :=
  ⟨(addFriendlyName_duplicate_asymmetry EndpointResources.construct "Kitchen" "en-US"
      "asset-1").1 (by decide) (by decide) (by decide),
    (addFriendlyName_duplicate_asymmetry sampleEndpointWithAsset "Kitchen" "en-US"
      "asset-1").2.2 (by decide)⟩

end AVS
